import Mathlib

/- Verification of the bounded-queue / worker-pool / retry pipeline of
SmileSion-Go-Utils: db/xsqlite/xsqlite.go and db/xredis/redis.go, together
with the panic-recovery goroutine wrapper in concurrency/concurrency.go.
The Go channel, context and WaitGroup mechanics are embedded explicitly;
values of type any and the redis command closures are treated as opaque
payloads. Durations are in nanoseconds, as in the Go time package. -/

/-- Outcome of one backend execution attempt: a nil error, a non-nil error,
or a Go panic raised inside the executor (possible in particular for the
xredis pipeline, whose unit of work is an arbitrary user closure). -/
inductive ExecResult where
  | ok
  | err
  | panic
deriving DecidableEq

/-- The constant time.Millisecond of the Go time package, in nanoseconds. -/
def millisecond : Nat := 1000000

/-- The backoff wait computed at xsqlite.go:178 and redis.go:105:
time.Duration(math.Pow(2, float64(j.tries))) * 100 * time.Millisecond.
For every tries value that reaches this line (tries < 5), math.Pow(2, tries)
is an exact float equal to 2 ^ tries. Value in nanoseconds. -/
def backoffWait (tries : Nat) : Nat := 2 ^ tries * 100 * millisecond

namespace Xsqlite

/-- type job (xsqlite.go:76-80): query string, args []any, tries int.
Argument values of type any are modelled as opaque strings. -/
structure job where
  query : String
  args  : List String
  tries : Nat
deriving DecidableEq

/-- The claim-relevant state of a DB (xsqlite.go:65-74): the buffered jobs
channel (FIFO buffer of capacity cfg.QueueSize plus its closed bit), the
cancellable context shared by all workers, and the number of times
sqldb.Close() has been invoked on the backend handle. -/
structure DB where
  jobs            : List job
  capacity        : Nat
  jobsClosed      : Bool
  canceled        : Bool
  sqldbCloseCount : Nat
deriving DecidableEq

/-- Open (xsqlite.go:93-158) restricted to the pipeline fields: QueueSize
defaults to 1000 when non-positive (xsqlite.go:100-102); the jobs channel
starts empty and open (xsqlite.go:147), the context is live
(xsqlite.go:143), and the backend handle has not been released. -/
def Open (queueSize : Int) : DB :=
  { jobs := []
    capacity := if queueSize ≤ 0 then 1000 else queueSize.toNat
    jobsClosed := false
    canceled := false
    sqldbCloseCount := 0 }

/-- Outcome of the blocking channel send in Enqueue (xsqlite.go:206) under
Go semantics: a send on a closed channel panics; a send on a full open
buffered channel blocks the caller until space appears; otherwise the value
is appended to the buffer. -/
inductive SendOutcome where
  | accepted (s : DB)
  | blocked
  | panicked
deriving DecidableEq

/-- The blocking send db.jobs <- j (xsqlite.go:206). -/
def chanSend (s : DB) (j : job) : SendOutcome :=
  if s.jobsClosed then .panicked
  else if s.jobs.length < s.capacity then .accepted { s with jobs := s.jobs ++ [j] }
  else .blocked

/-- Enqueue (xsqlite.go:204-207): builds a fresh job with tries = 0 (the Go
zero value of the omitted field) and performs the blocking send. -/
def Enqueue (s : DB) (query : String) (args : List String) : SendOutcome :=
  chanSend s { query := query, args := args, tries := 0 }

/-- Result of Close (xsqlite.go:227-232): either the value returned by
sqldb.Close(), or a panic. Go panics on close of an already closed channel,
so a second call dies at close(db.jobs) before reaching sqldb.Close(). -/
inductive CloseOutcome where
  | ok (s : DB)
  | panicked (s : DB)
deriving DecidableEq

/-- Close (xsqlite.go:227-232): db.cancel() fires the context, close(db.jobs)
closes the channel — panicking when the channel is already closed, there is
no once-guard — then db.wg.Wait() waits for the workers (their drain
behaviour is modelled by workerLoopClosed below) and sqldb.Close() releases
the backend handle. -/
def Close (s : DB) : CloseOutcome :=
  if s.jobsClosed then .panicked { s with canceled := true }
  else
    .ok { s with
          canceled := true
          jobsClosed := true
          sqldbCloseCount := s.sqldbCloseCount + 1 }

/-- The delay execWithRetry sleeps before a resubmission: present exactly
when the attempt failed with an error and j.tries < 5 (xsqlite.go:176-184),
absent on success and on a job that exhausted its attempts. -/
def retryDelay (j : job) (r : ExecResult) : Option Nat :=
  match r with
  | .err => if j.tries < 5 then some (backoffWait j.tries) else none
  | _ => none

/-- The resubmitted job: j.tries++ (xsqlite.go:185); the payload fields
query and args are untouched. -/
def retryJob (j : job) : job := { j with tries := j.tries + 1 }

/-- The non-blocking resubmission at xsqlite.go:186-189, a select with a
default case: the job is appended when the buffer has space, otherwise the
default case is taken and the job is dropped silently. This line only runs
with the channel still open: Close cancels the context strictly before
closing the channel, and a cancelled context makes execWithRetry return on
the ctx.Done branch instead. -/
def tryEnqueue (s : DB) (j : job) : DB :=
  if s.jobs.length < s.capacity then { s with jobs := s.jobs ++ [j] } else s

/-- Result of execWithRetry (xsqlite.go:175-195): the returned error flag
together with the state the call leaves behind, or a propagated panic —
neither execWithRetry nor worker installs a recover, so a panicking
execution unwinds through both. -/
inductive RetryOutcome where
  | returned (isErr : Bool) (s : DB)
  | panicked (s : DB)
deriving DecidableEq

/-- execWithRetry (xsqlite.go:175-195), with r the outcome of execOnce for
this attempt. On failure with j.tries < 5 the worker waits backoffWait
j.tries, racing the timer against ctx.Done (xsqlite.go:178-184): with the
context already cancelled it returns the error without resubmitting;
otherwise, after the timer fires, it increments tries and resubmits
non-blockingly. In every failure case the original error is returned
unchanged (xsqlite.go:192); the calling worker discards it
(xsqlite.go:170). -/
def execWithRetry (s : DB) (j : job) (r : ExecResult) : RetryOutcome :=
  match r with
  | .ok => .returned false s
  | .panic => .panicked s
  | .err =>
    if j.tries < 5 then
      if s.canceled then .returned true s
      else .returned true (tryEnqueue s (retryJob j))
    else .returned true s

/-- execOnce (xsqlite.go:197-202) abstracted to what the claims need: the
statement runs under a 10 second context derived from db.ctx; once db.ctx
is cancelled the derived context is already dead and ExecContext fails
immediately, whatever the backend would have answered otherwise. -/
def execOnce (canceled : Bool) (backendOk : Bool) : ExecResult :=
  if canceled then .err else if backendOk then .ok else .err

/-- The worker loop (xsqlite.go:160-173) run after Close has cancelled the
context and closed the channel. In each iteration the select has both cases
ready: receiving on ctx.Done succeeds (the context is cancelled), and
receiving on db.jobs succeeds (buffered values remain, or the closed empty
channel yields ok = false). Go picks among ready cases pseudo-randomly;
picks records the choices, true meaning the ctx.Done case was chosen.
Returns the jobs the worker actually receives, in order; jobs still
buffered when the worker returns are abandoned forever, since every worker
exits and the channel is never read again. -/
def workerLoopClosed (picks : List Bool) (queue : List job) : List job :=
  match picks, queue with
  | _, [] => []
  | [], j :: rest => j :: workerLoopClosed [] rest
  | pick :: ps, j :: rest =>
    if pick then [] else j :: workerLoopClosed ps rest

/-- Worker-pool state for the in-flight bound: the buffered channel and, for
each of the cfg.Workers workers started at xsqlite.go:152-155, the job it
currently holds — a worker holds at most the single job it received at
xsqlite.go:166, until its execWithRetry call returns. -/
structure Pool where
  jobs     : List job
  workers  : List (Option job)
  capacity : Nat
deriving DecidableEq

/-- Jobs in flight: enqueued but not yet terminally resolved — the buffered
ones plus the one job each busy worker holds. -/
def inFlight (p : Pool) : Nat :=
  p.jobs.length + (p.workers.filterMap id).length

/-- The pipeline as Open starts it: empty buffer, workerCount idle workers. -/
def initPool (capacity workerCount : Nat) : Pool :=
  { jobs := [], workers := List.replicate workerCount none, capacity := capacity }

/-- One scheduler-visible transition of the open pipeline: a producer send
completes (only when the buffer has room — a producer blocked on a full
channel has not yet placed its job in flight); an idle worker receives the
head job (xsqlite.go:166); a worker resolves its job terminally (success,
give-up at tries = 5, cancelled backoff, or retry dropped on a full
buffer); or a worker resubmits its failed job with tries incremented, which
requires room in the buffer (xsqlite.go:185-189). -/
inductive PoolStep : Pool → Pool → Prop where
  | enqueue (p : Pool) (j : job) (h : p.jobs.length < p.capacity) :
      PoolStep p { p with jobs := p.jobs ++ [j] }
  | dequeue (p : Pool) (i : Nat) (j : job) (rest : List job)
      (hw : p.workers.get? i = some none) (hq : p.jobs = j :: rest) :
      PoolStep p { p with jobs := rest, workers := p.workers.set i (some j) }
  | resolve (p : Pool) (i : Nat) (j : job) (hw : p.workers.get? i = some (some j)) :
      PoolStep p { p with workers := p.workers.set i none }
  | resubmit (p : Pool) (i : Nat) (j : job) (hw : p.workers.get? i = some (some j))
      (ht : j.tries < 5) (hq : p.jobs.length < p.capacity) :
      PoolStep p { p with jobs := p.jobs ++ [retryJob j], workers := p.workers.set i none }

/-- The shape facts preserved by every pipeline step: the capacity and the
worker count are fixed at Open and the buffer never exceeds the capacity. -/
def poolOk (capacity workerCount : Nat) (p : Pool) : Prop :=
  p.capacity = capacity ∧ p.workers.length = workerCount ∧ p.jobs.length ≤ capacity

end Xsqlite

namespace Xredis

/-- type job (redis.go:47-50): fn func(redis.Cmdable) error and tries int.
The command closure fn is an opaque payload of type F. -/
structure job (F : Type) where
  fn    : F
  tries : Nat
deriving DecidableEq

/-- The claim-relevant state of a DB (redis.go:36-45): the buffered jobs
channel, the cancellable context, and the number of times rdb.Close() has
been invoked on the backend handle. -/
structure DB (F : Type) where
  jobs          : List (job F)
  capacity      : Nat
  jobsClosed    : Bool
  canceled      : Bool
  rdbCloseCount : Nat
deriving DecidableEq

/-- Result of Close (redis.go:138-143): either the value returned by
rdb.Close(), or a panic on close of an already closed channel. -/
inductive CloseOutcome (F : Type) where
  | ok (s : DB F)
  | panicked (s : DB F)
deriving DecidableEq

/-- Close (redis.go:138-143): identical to the xsqlite Close — cancel the
context, close the jobs channel with no once-guard (a second call panics
here), wait for the workers, release the backend handle. -/
def Close {F : Type} (s : DB F) : CloseOutcome F :=
  if s.jobsClosed then .panicked { s with canceled := true }
  else
    .ok { s with
          canceled := true
          jobsClosed := true
          rdbCloseCount := s.rdbCloseCount + 1 }

/-- The resubmitted job: j.tries++ (redis.go:112); the closure fn is
untouched. -/
def retryJob {F : Type} (j : job F) : job F := { j with tries := j.tries + 1 }

/-- The non-blocking resubmission at redis.go:113-116, a select with a
default case: append when the buffer has space, silently drop otherwise.
As in xsqlite, this line runs only while the channel is open. -/
def tryEnqueue {F : Type} (s : DB F) (j : job F) : DB F :=
  if s.jobs.length < s.capacity then { s with jobs := s.jobs ++ [j] } else s

/-- Result of execWithRetry (redis.go:102-122): returned error flag and
resulting state, or a propagated panic — there is no recover between the
job closure and the worker goroutine. -/
inductive RetryOutcome (F : Type) where
  | returned (isErr : Bool) (s : DB F)
  | panicked (s : DB F)
deriving DecidableEq

/-- execWithRetry (redis.go:102-122), with r the outcome of calling the job
closure j.fn on the shared client: verbatim the same retry logic as the
xsqlite pipeline. -/
def execWithRetry {F : Type} (s : DB F) (j : job F) (r : ExecResult) : RetryOutcome F :=
  match r with
  | .ok => .returned false s
  | .panic => .panicked s
  | .err =>
    if j.tries < 5 then
      if s.canceled then .returned true s
      else .returned true (tryEnqueue s (retryJob j))
    else .returned true s

end Xredis

namespace Concurrency

/-- How a spawned goroutine ends: a normal return, a panic recovered by a
deferred recover, or an unrecovered panic — which terminates the whole Go
process. -/
inductive GoroutineOutcome where
  | normal
  | recoveredPanic
  | crashed
deriving DecidableEq

/-- SafeGo (concurrency.go:15-30): the goroutine body runs under a deferred
recover that logs a recovered panic and lets the goroutine end normally;
the panic is swallowed, not converted into a result and not retried. -/
def SafeGo : ExecResult → GoroutineOutcome
  | .panic => .recoveredPanic
  | _ => .normal

/-- A db pipeline worker goroutine, started with a bare go db.worker()
(xsqlite.go:154, redis.go:81): there is no deferred recover anywhere on the
path worker → execWithRetry → job execution, so a panicking job crashes the
goroutine, and an unrecovered goroutine panic terminates the Go process. -/
def pipelineWorkerGoroutine : ExecResult → GoroutineOutcome
  | .panic => .crashed
  | _ => .normal

end Concurrency

/-- Claim C1 fails on the code: on a freshly opened xsqlite pipeline the
first Close succeeds and releases the backend exactly once, but a second
Close panics at close of the already closed jobs channel — the two calls do
not return the same outcome. The xredis Close (redis.go:138-143) panics
identically on its second call. -/
theorem c1_counterexample :
    Xsqlite.Close (Xsqlite.Open 10) =
      Xsqlite.CloseOutcome.ok
        { jobs := [], capacity := 10, jobsClosed := true, canceled := true,
          sqldbCloseCount := 1 } ∧
    Xsqlite.Close
        { jobs := [], capacity := 10, jobsClosed := true, canceled := true,
          sqldbCloseCount := 1 } =
      Xsqlite.CloseOutcome.panicked
        { jobs := [], capacity := 10, jobsClosed := true, canceled := true,
          sqldbCloseCount := 1 } ∧
    Xredis.Close
        ({ jobs := [], capacity := 10, jobsClosed := true, canceled := true,
           rdbCloseCount := 1 } : Xredis.DB Nat) =
      Xredis.CloseOutcome.panicked
        { jobs := [], capacity := 10, jobsClosed := true, canceled := true,
          rdbCloseCount := 1 } :=
  ⟨rfl, rfl, rfl⟩

/-- Claim C1 amended: close() on an open pipeline releases the backend
handle exactly once, but it is one-shot rather than idempotent — a second
close() panics on closing the already closed jobs channel, before reaching
the backend release, so the backend is never double-released but the second
call panics instead of returning the first call's outcome. -/
theorem c1_amended_close_one_shot (s : Xsqlite.DB) (h : s.jobsClosed = false) :
    ∃ s1, Xsqlite.Close s = Xsqlite.CloseOutcome.ok s1 ∧
      s1.sqldbCloseCount = s.sqldbCloseCount + 1 ∧
      Xsqlite.Close s1 = Xsqlite.CloseOutcome.panicked { s1 with canceled := true } ∧
      ∀ s2, Xsqlite.Close s1 ≠ Xsqlite.CloseOutcome.ok s2 := by
  refine ⟨{ s with
            canceled := true
            jobsClosed := true
            sqldbCloseCount := s.sqldbCloseCount + 1 }, ?_, rfl, ?_, ?_⟩
  · simp [Xsqlite.Close, h]
  · simp [Xsqlite.Close]
  · intro s2 hc
    simp [Xsqlite.Close] at hc

/-- Claim C1 amended, instantiated: a concrete run of the two closes on a
pipeline opened with queue size 5. -/
theorem c1_amended_witness :
    ∃ s1, Xsqlite.Close (Xsqlite.Open 5) = Xsqlite.CloseOutcome.ok s1 ∧
      s1.sqldbCloseCount = (Xsqlite.Open 5).sqldbCloseCount + 1 ∧
      Xsqlite.Close s1 = Xsqlite.CloseOutcome.panicked { s1 with canceled := true } ∧
      ∀ s2, Xsqlite.Close s1 ≠ Xsqlite.CloseOutcome.ok s2 :=
  c1_amended_close_one_shot (Xsqlite.Open 5) rfl

/-- Claim C2: once Close has returned on an open pipeline, every Enqueue
fails — the send on the now closed jobs channel panics under Go semantics —
and is never accepted: no job is ever silently added after Close. -/
theorem c2_closed_pipeline_rejects_enqueue (s s1 : Xsqlite.DB)
    (h : Xsqlite.Close s = Xsqlite.CloseOutcome.ok s1)
    (q : String) (a : List String) :
    Xsqlite.Enqueue s1 q a = Xsqlite.SendOutcome.panicked ∧
    ∀ s2, Xsqlite.Enqueue s1 q a ≠ Xsqlite.SendOutcome.accepted s2 := by
  have hclosed : s1.jobsClosed = true := by
    cases hb : s.jobsClosed with
    | true => simp [Xsqlite.Close, hb] at h
    | false =>
      simp [Xsqlite.Close, hb] at h
      rw [← h]
  refine ⟨?_, ?_⟩
  · simp [Xsqlite.Enqueue, Xsqlite.chanSend, hclosed]
  · intro s2
    simp [Xsqlite.Enqueue, Xsqlite.chanSend, hclosed]

/-- Claim C2, instantiated: the pipeline opened with queue size 7, closed,
then asked to enqueue an INSERT. -/
theorem c2_witness :
    Xsqlite.Enqueue
        { jobs := [], capacity := 7, jobsClosed := true, canceled := true,
          sqldbCloseCount := 1 } "INSERT" [] = Xsqlite.SendOutcome.panicked ∧
    ∀ s2, Xsqlite.Enqueue
        { jobs := [], capacity := 7, jobsClosed := true, canceled := true,
          sqldbCloseCount := 1 } "INSERT" [] ≠ Xsqlite.SendOutcome.accepted s2 :=
  c2_closed_pipeline_rejects_enqueue (Xsqlite.Open 7) _ rfl "INSERT" []

/-- Claim C3 states the intent the code itself documents (the package
comment at xsqlite.go:9 promises that Close waits for consumption to
finish), but the code can abandon queued jobs: Close cancels the context
before closing the channel, so in the worker select both cases are ready,
and when the scheduler picks the ctx.Done case the worker returns with the
job still buffered — wg.Wait then succeeds and Close returns with the job
never executed. Moreover even a job the worker does receive after Close
fails: execOnce runs under the already cancelled context, so an
always-succeeding backend never gets to run it. -/
theorem c3_close_may_abandon_queued_jobs :
    Xsqlite.workerLoopClosed [true] [{ query := "INSERT", args := [], tries := 0 }] = [] ∧
    Xsqlite.execOnce true true = ExecResult.err :=
  ⟨rfl, rfl⟩

/-- Claim C4 fails on the code: a job execution that panics is not caught at
the worker boundary — execWithRetry propagates the panic without any
resubmission, and the bare goroutine running the worker crashes the
process. -/
theorem c4_counterexample :
    Xredis.execWithRetry
        ({ jobs := [], capacity := 10, jobsClosed := false, canceled := false,
           rdbCloseCount := 0 } : Xredis.DB Nat)
        { fn := 0, tries := 0 } ExecResult.panic =
      Xredis.RetryOutcome.panicked
        { jobs := [], capacity := 10, jobsClosed := false, canceled := false,
          rdbCloseCount := 0 } ∧
    Concurrency.pipelineWorkerGoroutine ExecResult.panic =
      Concurrency.GoroutineOutcome.crashed :=
  ⟨rfl, rfl⟩

/-- Claim C4 amended: in the db pipelines a panic inside a job execution is
not caught: it unwinds through execWithRetry — which therefore performs no
resubmission, so the job is not retried — and crashes the bare worker
goroutine, and with it the process. Panic recovery exists only in the
concurrency package wrappers: SafeGo recovers and logs the panic but
swallows it rather than converting it into a retried failure, and the db
pipeline workers are not started through SafeGo. -/
theorem c4_amended_panic_uncaught (F : Type) (s : Xredis.DB F) (j : Xredis.job F)
    (t : Xsqlite.DB) (k : Xsqlite.job) :
    Xredis.execWithRetry s j ExecResult.panic = Xredis.RetryOutcome.panicked s ∧
    Xsqlite.execWithRetry t k ExecResult.panic = Xsqlite.RetryOutcome.panicked t ∧
    Concurrency.pipelineWorkerGoroutine ExecResult.panic =
      Concurrency.GoroutineOutcome.crashed ∧
    Concurrency.SafeGo ExecResult.panic =
      Concurrency.GoroutineOutcome.recoveredPanic :=
  ⟨rfl, rfl, rfl, rfl⟩

/-- Claim C5: the attempt counter of a resubmitted job is exactly the
original counter plus one; any job execWithRetry adds to the queue is such
a resubmission and is only added while tries < 5; and a job that has
reached tries = 5 and fails again leaves the state untouched — it is
discarded and never resubmitted a sixth time. The xredis execWithRetry has
verbatim the same ceiling. -/
theorem c5_attempt_increment_and_ceiling (s : Xsqlite.DB) (j : Xsqlite.job)
    (F : Type) (r : Xredis.DB F) (k : Xredis.job F) :
    (Xsqlite.retryJob j).tries = j.tries + 1 ∧
    (5 ≤ j.tries →
      Xsqlite.execWithRetry s j ExecResult.err = Xsqlite.RetryOutcome.returned true s) ∧
    (∀ b s2, Xsqlite.execWithRetry s j ExecResult.err = Xsqlite.RetryOutcome.returned b s2 →
      ∀ x, x ∈ s2.jobs → x ∈ s.jobs ∨ (x = Xsqlite.retryJob j ∧ j.tries < 5)) ∧
    ((Xredis.retryJob k).tries = k.tries + 1) ∧
    (5 ≤ k.tries →
      Xredis.execWithRetry r k ExecResult.err = Xredis.RetryOutcome.returned true r) := by
  refine ⟨rfl, ?_, ?_, rfl, ?_⟩
  · intro h5
    have : ¬ j.tries < 5 := by omega
    simp [Xsqlite.execWithRetry, this]
  · intro b s2 hret x hx
    by_cases h5 : j.tries < 5
    · by_cases hc : s.canceled = true
      · simp [Xsqlite.execWithRetry, h5, hc] at hret
        rw [← hret.2] at hx
        exact Or.inl hx
      · simp [Xsqlite.execWithRetry, h5, hc, Xsqlite.tryEnqueue] at hret
        by_cases hroom : s.jobs.length < s.capacity
        · rw [if_pos hroom] at hret
          rw [← hret.2] at hx
          simp at hx
          rcases hx with hx | hx
          · exact Or.inl hx
          · exact Or.inr ⟨hx, h5⟩
        · rw [if_neg hroom] at hret
          rw [← hret.2] at hx
          exact Or.inl hx
    · simp [Xsqlite.execWithRetry, h5] at hret
      rw [← hret.2] at hx
      exact Or.inl hx
  · intro h5
    have : ¬ k.tries < 5 := by omega
    simp [Xredis.execWithRetry, this]

/-- Claim C5, instantiated: a job on its sixth attempt (tries = 5) that
fails again is discarded without resubmission, in both pipelines. -/
theorem c5_witness :
    (Xsqlite.retryJob { query := "q", args := [], tries := 4 }).tries = 5 ∧
    Xsqlite.execWithRetry (Xsqlite.Open 3) { query := "q", args := [], tries := 5 }
        ExecResult.err = Xsqlite.RetryOutcome.returned true (Xsqlite.Open 3) ∧
    Xredis.execWithRetry
        ({ jobs := [], capacity := 3, jobsClosed := false, canceled := false,
           rdbCloseCount := 0 } : Xredis.DB Nat) { fn := 7, tries := 5 }
        ExecResult.err =
      Xredis.RetryOutcome.returned true
        { jobs := [], capacity := 3, jobsClosed := false, canceled := false,
          rdbCloseCount := 0 } := by
  have h1 := c5_attempt_increment_and_ceiling (Xsqlite.Open 3)
    { query := "q", args := [], tries := 4 } Nat
    { jobs := [], capacity := 3, jobsClosed := false, canceled := false,
      rdbCloseCount := 0 } { fn := 7, tries := 5 }
  have h2 := c5_attempt_increment_and_ceiling (Xsqlite.Open 3)
    { query := "q", args := [], tries := 5 } Nat
    { jobs := [], capacity := 3, jobsClosed := false, canceled := false,
      rdbCloseCount := 0 } { fn := 7, tries := 5 }
  exact ⟨h1.1, h2.2.1 (by decide), h2.2.2.2.2 (by decide)⟩

/-- Claim C6: the backoff before resubmitting a job whose attempt counter
is n equals backoffBase times 2 to the n with backoffBase = 100ms: the
delay execWithRetry sleeps for a failed attempt with tries < 5 is
backoffWait tries = 100ms * 2 ^ tries, the first retry (tries = 0) waits
exactly 100ms, and failures at attempts 0, 1 and 2 accumulate
100 + 200 + 400 = 700ms of backoff before attempt 3. -/
theorem c6_exponential_backoff (n : Nat) (j : Xsqlite.job) (h : j.tries < 5) :
    backoffWait n = 100 * millisecond * 2 ^ n ∧
    Xsqlite.retryDelay j ExecResult.err = some (100 * millisecond * 2 ^ j.tries) ∧
    backoffWait 0 = 100 * millisecond ∧
    backoffWait 0 + backoffWait 1 + backoffWait 2 = 700 * millisecond := by
  refine ⟨by simp [backoffWait]; ring, ?_, by simp [backoffWait], by norm_num [backoffWait, millisecond]⟩
  simp [Xsqlite.retryDelay, h, backoffWait]
  ring

/-- Claim C6, instantiated: a job failing on its third attempt (tries = 2)
is retried after 400ms. -/
theorem c6_witness :
    backoffWait 2 = 100 * millisecond * 2 ^ 2 ∧
    Xsqlite.retryDelay { query := "q", args := [], tries := 2 } ExecResult.err =
      some (100 * millisecond * 2 ^ 2) ∧
    backoffWait 0 = 100 * millisecond ∧
    backoffWait 0 + backoffWait 1 + backoffWait 2 = 700 * millisecond := by
  have h := c6_exponential_backoff 2 { query := "q", args := [], tries := 2 } (by decide)
  exact h

/-- Claim C7: the retry resubmission is the non-blocking select-with-default
send: when the buffer is full the retried job is dropped silently — the
state is unchanged, and execWithRetry returns exactly the value it returns
when the resubmission is accepted, namely the original execution error,
which the calling worker then discards. No outcome of this path ever
blocks the worker. Same behaviour in both pipelines. -/
theorem c7_retry_drop_on_full (s : Xsqlite.DB) (j : Xsqlite.job)
    (hfull : s.capacity ≤ s.jobs.length) (hc : s.canceled = false) (ht : j.tries < 5)
    (F : Type) (r : Xredis.DB F) (k : Xredis.job F)
    (hrfull : r.capacity ≤ r.jobs.length) (hrc : r.canceled = false) (hkt : k.tries < 5) :
    Xsqlite.execWithRetry s j ExecResult.err = Xsqlite.RetryOutcome.returned true s ∧
    Xredis.execWithRetry r k ExecResult.err = Xredis.RetryOutcome.returned true r := by
  constructor
  · have hn : ¬ s.jobs.length < s.capacity := by omega
    simp [Xsqlite.execWithRetry, ht, hc, Xsqlite.tryEnqueue, hn]
  · have hn : ¬ r.jobs.length < r.capacity := by omega
    simp [Xredis.execWithRetry, hkt, hrc, Xredis.tryEnqueue, hn]

/-- Claim C7, instantiated: a full queue of capacity 1 silently drops the
retried job in both pipelines. -/
theorem c7_witness :
    Xsqlite.execWithRetry
        { jobs := [{ query := "a", args := [], tries := 0 }], capacity := 1,
          jobsClosed := false, canceled := false, sqldbCloseCount := 0 }
        { query := "b", args := [], tries := 1 } ExecResult.err =
      Xsqlite.RetryOutcome.returned true
        { jobs := [{ query := "a", args := [], tries := 0 }], capacity := 1,
          jobsClosed := false, canceled := false, sqldbCloseCount := 0 } ∧
    Xredis.execWithRetry
        ({ jobs := [{ fn := 1, tries := 0 }], capacity := 1, jobsClosed := false,
           canceled := false, rdbCloseCount := 0 } : Xredis.DB Nat)
        { fn := 2, tries := 1 } ExecResult.err =
      Xredis.RetryOutcome.returned true
        { jobs := [{ fn := 1, tries := 0 }], capacity := 1, jobsClosed := false,
          canceled := false, rdbCloseCount := 0 } :=
  c7_retry_drop_on_full _ _ (by decide) rfl (by decide) Nat _ _ (by decide) rfl (by decide)

/-- Every single pipeline step preserves the shape facts: capacity and
worker count are those fixed at Open, and the buffer never exceeds the
capacity, because both the producer send and the retry resubmission are
guarded by available room. -/
theorem poolStep_preserves_poolOk {c w : Nat} {p q : Xsqlite.Pool}
    (hp : Xsqlite.poolOk c w p) (hstep : Xsqlite.PoolStep p q) :
    Xsqlite.poolOk c w q := by
  obtain ⟨hc, hw, hlen⟩ := hp
  cases hstep with
  | enqueue j h =>
    refine ⟨hc, hw, ?_⟩
    simp only [List.length_append, List.length_cons, List.length_nil]
    omega
  | dequeue i j rest hwk hq =>
    refine ⟨hc, by simpa using hw, ?_⟩
    have hlen2 : p.jobs.length = rest.length + 1 := by rw [hq]; simp
    simp only []
    omega
  | resolve i j hwk =>
    exact ⟨hc, by simpa using hw, hlen⟩
  | resubmit i j hwk ht hq =>
    refine ⟨hc, by simpa using hw, ?_⟩
    simp only [List.length_append, List.length_cons, List.length_nil]
    omega

/-- Claim C8: along every step sequence from the freshly opened pipeline,
the number of jobs in flight never exceeds capacity + workerCount — the
buffer holds at most capacity jobs and each of the workerCount workers
holds at most one job. -/
theorem c8_in_flight_bound (c w : Nat) (p : Xsqlite.Pool)
    (h : Relation.ReflTransGen Xsqlite.PoolStep (Xsqlite.initPool c w) p) :
    Xsqlite.inFlight p ≤ c + w := by
  have hok : Xsqlite.poolOk c w p := by
    induction h with
    | refl =>
      refine ⟨rfl, ?_, ?_⟩
      · simp [Xsqlite.initPool]
      · simp [Xsqlite.initPool]
    | tail h1 hstep ih => exact poolStep_preserves_poolOk ih hstep
  obtain ⟨hc, hw, hlen⟩ := hok
  have hfm : (p.workers.filterMap id).length ≤ p.workers.length :=
    List.length_filterMap_le id p.workers
  unfold Xsqlite.inFlight
  omega

/-- Claim C8, instantiated: after enqueuing one job on a pipeline of
capacity 2 with one worker, at most 3 jobs are in flight. -/
theorem c8_witness :
    Xsqlite.inFlight
      { jobs := [{ query := "q1", args := [], tries := 0 }], workers := [none],
        capacity := 2 } ≤ 2 + 1 := by
  have hstep : Xsqlite.PoolStep (Xsqlite.initPool 2 1)
      { jobs := [{ query := "q1", args := [], tries := 0 }], workers := [none],
        capacity := 2 } := by
    have h := Xsqlite.PoolStep.enqueue (Xsqlite.initPool 2 1)
      { query := "q1", args := [], tries := 0 } (by simp [Xsqlite.initPool])
    simpa [Xsqlite.initPool] using h
  exact c8_in_flight_bound 2 1 _ (Relation.ReflTransGen.single hstep)

/-- Claim C9: a direct Enqueue on a full open queue blocks the caller — it
neither errors nor panics nor drops the job — and an Enqueue on an open
queue with room is accepted immediately, appending the job with tries = 0;
so with capacity 2, two enqueues fill the buffer, a third blocks, and the
same third send is accepted as soon as the worker has dequeued one job. -/
theorem c9_enqueue_blocks_when_full (s : Xsqlite.DB) (h : s.jobsClosed = false)
    (q : String) (a : List String) :
    (s.capacity ≤ s.jobs.length → Xsqlite.Enqueue s q a = Xsqlite.SendOutcome.blocked) ∧
    (s.jobs.length < s.capacity →
      Xsqlite.Enqueue s q a = Xsqlite.SendOutcome.accepted
        { s with jobs := s.jobs ++ [{ query := q, args := a, tries := 0 }] }) := by
  constructor
  · intro hf
    have hn : ¬ s.jobs.length < s.capacity := by omega
    simp [Xsqlite.Enqueue, Xsqlite.chanSend, h, hn]
  · intro hlt
    simp [Xsqlite.Enqueue, Xsqlite.chanSend, h, hlt]

/-- Claim C9, instantiated: capacity 2, jobs q1 and q2 buffered — the send
of q3 blocks; after the single worker has dequeued q1, the same send of q3
is accepted. -/
theorem c9_witness :
    Xsqlite.Enqueue
        { jobs := [{ query := "q1", args := [], tries := 0 },
                   { query := "q2", args := [], tries := 0 }], capacity := 2,
          jobsClosed := false, canceled := false, sqldbCloseCount := 0 } "q3" [] =
      Xsqlite.SendOutcome.blocked ∧
    Xsqlite.Enqueue
        { jobs := [{ query := "q2", args := [], tries := 0 }], capacity := 2,
          jobsClosed := false, canceled := false, sqldbCloseCount := 0 } "q3" [] =
      Xsqlite.SendOutcome.accepted
        { jobs := [{ query := "q2", args := [], tries := 0 },
                   { query := "q3", args := [], tries := 0 }], capacity := 2,
          jobsClosed := false, canceled := false, sqldbCloseCount := 0 } :=
  ⟨(c9_enqueue_blocks_when_full _ rfl "q3" []).1 (by decide),
   (c9_enqueue_blocks_when_full _ rfl "q3" []).2 (by decide)⟩

/-- Claim C10: a resubmitted job differs from the original only in tries:
the query and argument list (xsqlite) and the command closure fn (xredis)
are exactly those of the original submission, and the job execWithRetry
appends to the buffer on a failed attempt with room available is precisely
that resubmission. -/
theorem c10_retry_preserves_payload (j : Xsqlite.job) (s : Xsqlite.DB)
    (hc : s.canceled = false) (ht : j.tries < 5) (hroom : s.jobs.length < s.capacity)
    (F : Type) (k : Xredis.job F) :
    (Xsqlite.retryJob j).query = j.query ∧
    (Xsqlite.retryJob j).args = j.args ∧
    (Xsqlite.retryJob j).tries = j.tries + 1 ∧
    (Xredis.retryJob k).fn = k.fn ∧
    (Xredis.retryJob k).tries = k.tries + 1 ∧
    Xsqlite.execWithRetry s j ExecResult.err =
      Xsqlite.RetryOutcome.returned true { s with jobs := s.jobs ++ [Xsqlite.retryJob j] } := by
  refine ⟨rfl, rfl, rfl, rfl, rfl, ?_⟩
  simp [Xsqlite.execWithRetry, ht, hc, Xsqlite.tryEnqueue, hroom]

/-- Claim C10, instantiated: the INSERT job with its argument list and the
closure token 9 keep their payloads bit for bit across a retry. -/
theorem c10_witness :
    (Xsqlite.retryJob { query := "INSERT", args := ["x"], tries := 1 }).query = "INSERT" ∧
    (Xsqlite.retryJob { query := "INSERT", args := ["x"], tries := 1 }).args = ["x"] ∧
    (Xsqlite.retryJob { query := "INSERT", args := ["x"], tries := 1 }).tries = 2 ∧
    (Xredis.retryJob ({ fn := 9, tries := 1 } : Xredis.job Nat)).fn = 9 ∧
    (Xredis.retryJob ({ fn := 9, tries := 1 } : Xredis.job Nat)).tries = 2 ∧
    Xsqlite.execWithRetry
        { jobs := [], capacity := 4, jobsClosed := false, canceled := false,
          sqldbCloseCount := 0 }
        { query := "INSERT", args := ["x"], tries := 1 } ExecResult.err =
      Xsqlite.RetryOutcome.returned true
        { jobs := [Xsqlite.retryJob { query := "INSERT", args := ["x"], tries := 1 }],
          capacity := 4, jobsClosed := false, canceled := false, sqldbCloseCount := 0 } :=
  c10_retry_preserves_payload { query := "INSERT", args := ["x"], tries := 1 }
    { jobs := [], capacity := 4, jobsClosed := false, canceled := false,
      sqldbCloseCount := 0 } rfl (by decide) (by decide) Nat { fn := 9, tries := 1 }
